import Mathlib

/-!
Verification development for the kolibri progress-aggregation and
capacity-admission logic.

Source files embedded here:
* `src/kolibri/plugins/device/assets/src/views/SelectContentPage/SelectedResourcesSize.vue`
  (the capacity admission check: `remainingSpaceAfterTransfer`, `buttonIsDisabled`).
* `src/kolibri/plugins/coach/assets/src/views/reports/ReportsLessonListPage.vue`
  (the lesson-list table projector: filter, sort, row assembly).
* The `ReportsLessonReportPage` component (bundled in the same source file as
  `SelectedResourcesSize.vue`): the per-lesson resource table projector.

Helpers supplied by the `commonCoach` mixin (`getLearnersForLesson`,
`getLessonStatusTally`, `getContentStatusTally`, `getContentAvgTimeSpent`,
`getGroupNames`) and by lodash (`sortBy`) are not present under `src/`;
they are modelled from the spec, each with a doc comment saying so.

JavaScript numbers are modelled as `ℤ` for byte sizes and `ℚ` for durations;
counts are `Nat`.
-/

namespace Kolibri

/-! ## Capacity admission check (SelectedResourcesSize.vue, lines 81-86) -/

/-- Embeds `remainingSpaceAfterTransfer()`: `Math.max(this.spaceOnDrive - this.fileSize, 0)`. -/
def remainingSpaceAfterTransfer (fileSize spaceOnDrive : ℤ) : ℤ :=
  max (spaceOnDrive - fileSize) 0

/-- Embeds `buttonIsDisabled()`:
`this.resourceCount === 0 || this.remainingSpaceAfterTransfer <= 0`. -/
def buttonIsDisabled (resourceCount : Nat) (fileSize spaceOnDrive : ℤ) : Bool :=
  decide (resourceCount = 0) || decide (remainingSpaceAfterTransfer fileSize spaceOnDrive ≤ 0)

/-! ## Data model for the coach report pages -/

/-- Completion status of one learner on one item (spec section 3: CompletionRecord). -/
inductive Status
  | notStarted
  | inProgress
  | completed
  | needsHelp
deriving DecidableEq

/-- A learner eligible to receive an assignment (spec section 3: Recipient). -/
structure Recipient where
  id : String
  groups : List String
deriving DecidableEq

/-- One learner record of progress on one item (spec section 3: CompletionRecord).
`timeSpent` may be absent (`none`). -/
structure CompletionRecord where
  learnerId : String
  itemId : String
  status : Status
  timeSpent : Option ℚ
deriving DecidableEq

/-- A lesson as consumed by ReportsLessonListPage: identifier, title, active flag,
and the assignment scope (the `everyone` flag plus targeted group identifiers). -/
structure Lesson where
  id : String
  title : String
  active : Bool
  everyone : Bool
  groups : List String
deriving DecidableEq

/-- Fixed-shape status tally (spec section 3: Tally), four fixed buckets. -/
structure Tally where
  completed : Nat
  inProgress : Nat
  needsHelp : Nat
  notStarted : Nat
deriving DecidableEq

/-- Sum of the four tally buckets; this is what
`Object.values(tally).reduce((a, b) => a + b, 0)` computes on a tally object. -/
def Tally.sum (t : Tally) : Nat :=
  t.completed + t.inProgress + t.needsHelp + t.notStarted

/-- Increment the bucket of the given status. -/
def Tally.bump (t : Tally) : Status → Tally
  | .completed => { t with completed := t.completed + 1 }
  | .inProgress => { t with inProgress := t.inProgress + 1 }
  | .needsHelp => { t with needsHelp := t.needsHelp + 1 }
  | .notStarted => { t with notStarted := t.notStarted + 1 }

/-- Modelled from the spec: the record provider of section 6, queried by
(recipient, item). Records are ordered most recent first, so `find?` returns
the most recent record for the pair, `none` when the recipient has no record. -/
def recordFor (records : List CompletionRecord) (itemId : String) (r : Recipient) :
    Option CompletionRecord :=
  records.find? (fun c => c.learnerId = r.id ∧ c.itemId = itemId)

/-- Modelled from the spec: section 4.1, the status used for one recipient;
a recipient with no record for the item is treated as not-started. -/
def statusFor (records : List CompletionRecord) (itemId : String) (r : Recipient) : Status :=
  match recordFor records itemId r with
  | none => .notStarted
  | some c => c.status

/-- Modelled from the spec: `getLessonStatusTally` and `getContentStatusTally`
come from the commonCoach mixin, which is absent from src. Section 4.1: for each
recipient, look up the most recent record for (recipient, item); if absent,
treat as not-started; increment the corresponding bucket. -/
def computeTally (records : List CompletionRecord) (itemId : String)
    (recipients : List Recipient) : Tally :=
  recipients.foldl (fun t r => t.bump (statusFor records itemId r)) ⟨0, 0, 0, 0⟩

/-- Mixin name at the lesson-list call site (line 122). -/
def getLessonStatusTally (records : List CompletionRecord) (itemId : String)
    (recipients : List Recipient) : Tally :=
  computeTally records itemId recipients

/-- Mixin name at the per-lesson report call site (line 218 of the bundled file). -/
def getContentStatusTally (records : List CompletionRecord) (itemId : String)
    (recipients : List Recipient) : Tally :=
  computeTally records itemId recipients

/-- Modelled from the spec: section 4.2, the time-spent values that contribute to
the average: recipients having a record for the item with a defined time-spent. -/
def definedTimes (records : List CompletionRecord) (itemId : String)
    (recipients : List Recipient) : List ℚ :=
  recipients.filterMap (fun r => (recordFor records itemId r).bind (fun c => c.timeSpent))

/-- Modelled from the spec: `getContentAvgTimeSpent` comes from the commonCoach
mixin, which is absent from src. Section 4.2: arithmetic mean over recipients with
a defined time-spent value; if no recipient has one, return zero directly without
dividing. -/
def computeAverageTime (records : List CompletionRecord) (itemId : String)
    (recipients : List Recipient) : ℚ :=
  let ts := definedTimes records itemId recipients
  if ts.length = 0 then 0 else (ts.foldl (fun a b => a + b) 0) / (ts.length : ℚ)

/-- Mixin name at the per-lesson report call site (line 220 of the bundled file). -/
def getContentAvgTimeSpent (records : List CompletionRecord) (itemId : String)
    (recipients : List Recipient) : ℚ :=
  computeAverageTime records itemId recipients

/-- Modelled from the spec: section 4.3, the recipient resolver. Scope `everyone`
returns all recipients; otherwise a recipient in any targeted group qualifies. -/
def resolveRecipients (lesson : Lesson) (allRecipients : List Recipient) : List Recipient :=
  if lesson.everyone then allRecipients
  else allRecipients.filter (fun r => lesson.groups.any (fun g => r.groups.contains g))

/-- Modelled from the spec: `getLearnersForLesson` comes from the commonCoach
mixin, which is absent from src; it resolves the recipients of a lesson
(spec section 4.3). -/
def getLearnersForLesson (allRecipients : List Recipient) (lesson : Lesson) : List Recipient :=
  resolveRecipients lesson allRecipients

/-- Modelled from the spec: the group-name resolver of section 6, mapping group
identifiers to display names; identifiers missing from the map are dropped
(section 7, missing references are treated as no data). -/
def getGroupNames (groupNameMap : List (String × String)) (groups : List String) :
    List String :=
  groups.filterMap (fun g => (groupNameMap.find? (fun p => p.1 = g)).map (fun p => p.2))

/-! ## Filter step of the lesson-list table (ReportsLessonListPage.vue, lines 108-116) -/

/-- Embeds the filter callback of `table()`. The source has no final `else`
branch: for an unrecognized filter value the JavaScript callback returns
`undefined`, which `Array.prototype.filter` treats as falsy, so the item is
dropped; hence the final `false`. -/
def lessonFilterPred (filterValue : String) (lesson : Lesson) : Bool :=
  if filterValue = "allLessons" then true
  else if filterValue = "activeLessons" then lesson.active
  else if filterValue = "inactiveLessons" then !lesson.active
  else false

/-- Embeds `this.lessons.filter(lesson => ...)` (lines 108-116). -/
def filterLessons (filterValue : String) (lessons : List Lesson) : List Lesson :=
  lessons.filter (lessonFilterPred filterValue)

/-! ## Sort step (lodash sortBy at lines 117 and 216) -/

/-- Modelled from the spec: lodash `sortBy` is an external library function,
absent from src; section 4.4 step 2 specifies a stable sort by the given keys.
Stable insertion of `x` into `l`: `x` goes in front of the first element it
compares less-or-equal to, so an element equal under the comparator that was
earlier in the input stays earlier. -/
def insertBy {α : Type} (le : α → α → Bool) (x : α) : List α → List α
  | [] => [x]
  | y :: ys => if le x y then x :: y :: ys else y :: insertBy le x ys

/-- Modelled from the spec: stable insertion sort with comparator `le`
(section 4.4 step 2, the stable sort contract of lodash sortBy). -/
def sortByBool {α : Type} (le : α → α → Bool) (l : List α) : List α :=
  l.foldr (insertBy le) []

/-- Strict lexicographic comparison of character lists by code point, the order
a JavaScript string comparison yields on the titles involved. -/
def charListLt : List Char → List Char → Bool
  | [], [] => false
  | [], _ :: _ => true
  | _ :: _, [] => false
  | c :: cs, d :: ds =>
    if c.toNat < d.toNat then true
    else if d.toNat < c.toNat then false
    else charListLt cs ds

/-- Strict string comparison. -/
def strLt (a b : String) : Bool :=
  charListLt a.data b.data

/-- Non-strict string comparison. -/
def strLe (a b : String) : Bool :=
  !(strLt b a)

/-- Comparator for `sortBy(filtered, [title, active])` (line 117): ascending by
title, ties broken by the active flag (`false` before `true`). -/
def lessonLe (a b : Lesson) : Bool :=
  if a.title = b.title then !a.active || b.active else strLt a.title b.title

/-- The compound sort key of line 117: title first, then the active flag. -/
def lessonSortKey (l : Lesson) : String × Bool :=
  (l.title, l.active)

/-- Embeds `this._.sortBy(filtered, [title, active])` (line 117). -/
def sortLessons (lessons : List Lesson) : List Lesson :=
  sortByBool lessonLe lessons

/-! ## Lesson-list table projector (ReportsLessonListPage.vue, lines 107-129) -/

/-- The row emitted by the lesson-list table: the four derived fields of the
object literal at lines 120-125 followed by the fields of the lesson copied in
by `Object.assign(tableRow, lesson)` (line 126). -/
structure TableRow where
  totalLearners : Nat
  tally : Tally
  groupNames : List String
  hasAssignments : Bool
  id : String
  title : String
  active : Bool
  everyone : Bool
  groups : List String
deriving DecidableEq

/-- Embeds the `table()` computed property (lines 107-129): filter, stable sort
by [title, active], then one row per surviving lesson. -/
def table (lessons : List Lesson) (classLearners : List Recipient)
    (records : List CompletionRecord) (groupNameMap : List (String × String))
    (filterValue : String) : List TableRow :=
  let filtered := filterLessons filterValue lessons
  let sorted := sortLessons filtered
  sorted.map (fun lesson =>
    let learners := getLearnersForLesson classLearners lesson
    { totalLearners := learners.length
      tally := getLessonStatusTally records lesson.id learners
      groupNames := getGroupNames groupNameMap lesson.groups
      hasAssignments := decide (0 < learners.length)
      id := lesson.id
      title := lesson.title
      active := lesson.active
      everyone := lesson.everyone
      groups := lesson.groups })

/-! ## Per-lesson resource table (ReportsLessonReportPage, lines 214-227 of the
bundled source file) -/

/-- A content node of the lesson, as read from `contentNodeMap`. -/
structure ContentNode where
  node_id : String
  content_id : String
  title : String
  kind : String
deriving DecidableEq

/-- Comparator for `sortBy(contentArray, [title])` (line 216): ascending by title. -/
def contentLe (a b : ContentNode) : Bool :=
  strLe a.title b.title

/-- Embeds `this._.sortBy(contentArray, [title])` (line 216). -/
def sortContents (contents : List ContentNode) : List ContentNode :=
  sortByBool contentLe contents

/-- The row emitted by the per-lesson resource table (lines 219-224): note that
`hasAssignments` is `Object.values(tally).reduce((a, b) => a + b, 0)`, a number
(the tally sum), not a boolean. -/
structure ReportRow where
  avgTimeSpent : ℚ
  tally : Tally
  hasAssignments : Nat
  node_id : String
  content_id : String
  title : String
  kind : String
deriving DecidableEq

/-- Embeds the `table()` computed property of ReportsLessonReportPage
(lines 214-227): look up the content nodes of the lesson (a node id missing from
the map is dropped, spec section 7), sort by title, then one row per node. -/
def reportTable (node_ids : List String) (contentNodeMap : List (String × ContentNode))
    (recipients : List Recipient) (records : List CompletionRecord) : List ReportRow :=
  let contentArray := node_ids.filterMap
    (fun nid => (contentNodeMap.find? (fun p => p.1 = nid)).map (fun p => p.2))
  let sorted := sortContents contentArray
  sorted.map (fun content =>
    let tally := getContentStatusTally records content.content_id recipients
    { avgTimeSpent := getContentAvgTimeSpent records content.content_id recipients
      tally := tally
      hasAssignments := tally.sum
      node_id := content.node_id
      content_id := content.content_id
      title := content.title
      kind := content.kind })

/-! ## JavaScript object model for the row assembly (Object.assign, line 126) -/

/-- A JavaScript object: an ordered association list of string keys and values. -/
abbrev Obj (V : Type) : Type :=
  List (String × V)

/-- Setting one property, as JavaScript assignment does: an existing key keeps
its position and takes the new value, a new key is appended. -/
def setProp {V : Type} : Obj V → String → V → Obj V
  | [], k, v => [(k, v)]
  | p :: ps, k, v => if p.1 = k then (k, v) :: ps else p :: setProp ps k v

/-- Embeds `Object.assign(target, source)`: every own property of the source is
set on the target, in source order. -/
def assign {V : Type} (target source : Obj V) : Obj V :=
  source.foldl (fun t p => setProp t p.1 p.2) target

/-- Property lookup. -/
def getProp {V : Type} : Obj V → String → Option V
  | [], _ => none
  | p :: ps, k => if p.1 = k then some p.2 else getProp ps k

/-- The keys of an object, in order. -/
def keysOf {V : Type} (o : Obj V) : List String :=
  o.map (fun p => p.1)

/-- Values a field of a table row can hold. -/
inductive JVal
  | bool (b : Bool)
  | num (q : ℚ)
  | str (s : String)
  | strs (l : List String)
  | tallyV (t : Tally)
deriving DecidableEq

/-- Object form of the tableRow literal of lines 120-125: the four derived
fields, computed exactly as in `table`. -/
def derivedRowObj (classLearners : List Recipient) (records : List CompletionRecord)
    (groupNameMap : List (String × String)) (lesson : Lesson) : Obj JVal :=
  let learners := getLearnersForLesson classLearners lesson
  [("totalLearners", JVal.num (learners.length : ℚ)),
   ("tally", JVal.tallyV (getLessonStatusTally records lesson.id learners)),
   ("groupNames", JVal.strs (getGroupNames groupNameMap lesson.groups)),
   ("hasAssignments", JVal.bool (decide (0 < learners.length)))]

/-- Object-level embedding of lines 120-127: the tableRow literal followed by
`Object.assign(tableRow, lesson)`. `lessonFields` is the JavaScript object form
of the lesson, whose typed projection is `lesson`. -/
def assembleRowObj (classLearners : List Recipient) (records : List CompletionRecord)
    (groupNameMap : List (String × String)) (lesson : Lesson)
    (lessonFields : Obj JVal) : Obj JVal :=
  assign (derivedRowObj classLearners records groupNameMap lesson) lessonFields

/-- Object form of a lesson: its four declared data fields, followed by any
further fields the JavaScript object happens to carry. -/
def lessonObjOf (lesson : Lesson) (extra : Obj JVal) : Obj JVal :=
  [("id", JVal.str lesson.id),
   ("title", JVal.str lesson.title),
   ("active", JVal.bool lesson.active),
   ("groups", JVal.strs lesson.groups)] ++ extra

/-! ## Sample data for concrete instantiations -/

/-- A concrete active lesson. -/
def sampleLesson : Lesson :=
  ⟨"l1", "b", true, true, []⟩

/-- A concrete inactive lesson. -/
def sampleLesson2 : Lesson :=
  ⟨"l2", "a", false, true, []⟩

/-- A second concrete active lesson. -/
def sampleLesson3 : Lesson :=
  ⟨"l3", "c", true, true, []⟩

/-- A concrete content node. -/
def sampleNode : ContentNode :=
  ⟨"n1", "c1", "t", "exercise"⟩

/-- A concrete recipient. -/
def sampleRecipient1 : Recipient :=
  ⟨"r1", []⟩

/-- A second concrete recipient. -/
def sampleRecipient2 : Recipient :=
  ⟨"r2", []⟩

/-- The row emitted by `table [sampleLesson] [sampleRecipient1] [] [] "allLessons"`. -/
def sampleTableRow : TableRow :=
  ⟨1, ⟨0, 0, 0, 1⟩, [], true, "l1", "b", true, true, []⟩

/-- The row emitted by
`reportTable ["n1"] [("n1", sampleNode)] [sampleRecipient1] []`. -/
def sampleReportRow : ReportRow :=
  ⟨0, ⟨0, 0, 0, 1⟩, 1, "n1", "c1", "t", "exercise"⟩

/-! ## Helper lemmas -/

theorem Tally.sum_bump (t : Tally) (st : Status) : (t.bump st).sum = t.sum + 1 := by
  cases st <;> simp [Tally.bump, Tally.sum] <;> omega

theorem computeTally_go_sum (records : List CompletionRecord) (itemId : String) :
    ∀ (l : List Recipient) (t : Tally),
      (l.foldl (fun t r => t.bump (statusFor records itemId r)) t).sum = t.sum + l.length := by
  intro l
  induction l with
  | nil => intro t; simp
  | cons r rs ih =>
    intro t
    simp only [List.foldl_cons, List.length_cons, ih, Tally.sum_bump]
    omega

theorem computeTally_sum (records : List CompletionRecord) (itemId : String)
    (recipients : List Recipient) :
    (computeTally records itemId recipients).sum = recipients.length := by
  simp [computeTally, computeTally_go_sum]
  rfl

theorem Tally.bucket_le_sum (t : Tally) :
    t.completed ≤ t.sum ∧ t.inProgress ≤ t.sum ∧ t.needsHelp ≤ t.sum ∧
      t.notStarted ≤ t.sum := by
  simp only [Tally.sum]
  omega

theorem charListLt_self : ∀ l : List Char, charListLt l l = false
  | [] => rfl
  | c :: cs => by simp [charListLt, charListLt_self cs]

theorem filter_insertBy {α : Type} (le : α → α → Bool) (p : α → Bool)
    (hp : ∀ a b, p a = true → p b = true → le a b = true) (x : α) (l : List α) :
    (insertBy le x l).filter p = (x :: l).filter p := by
  induction l with
  | nil => rfl
  | cons y ys ih =>
    rw [insertBy]
    by_cases h : le x y = true
    · rw [if_pos h]
    · rw [if_neg h]
      cases hx : p x with
      | true =>
        cases hy : p y with
        | true => exact absurd (hp x y hx hy) h
        | false => simp [List.filter_cons, hx, hy, ih]
      | false => simp [List.filter_cons, hx, ih]

theorem filter_sortByBool {α : Type} (le : α → α → Bool) (p : α → Bool)
    (hp : ∀ a b, p a = true → p b = true → le a b = true) (l : List α) :
    (sortByBool le l).filter p = l.filter p := by
  induction l with
  | nil => rfl
  | cons x xs ih =>
    have h1 : sortByBool le (x :: xs) = insertBy le x (sortByBool le xs) := rfl
    rw [h1, filter_insertBy le p hp]
    simp [List.filter_cons, ih]

theorem getProp_setProp {V : Type} (o : Obj V) (k : String) (v : V) (k2 : String) :
    getProp (setProp o k v) k2 = if k2 = k then some v else getProp o k2 := by
  induction o with
  | nil =>
    by_cases h : k2 = k <;> simp [setProp, getProp, h, Ne.symm]
  | cons p ps ih =>
    by_cases hpk : p.1 = k
    · by_cases hk : k2 = k
      · subst hk
        simp [setProp, getProp, hpk]
      · have hk2 : ¬ k = k2 := fun hc => hk hc.symm
        simp [setProp, getProp, hpk, hk, hk2]
    · by_cases hk : k2 = k
      · subst hk
        simp [setProp, getProp, hpk, ih]
      · simp [setProp, getProp, hpk, ih, hk]

theorem getProp_eq_none {V : Type} (o : Obj V) (k : String) (h : k ∉ keysOf o) :
    getProp o k = none := by
  induction o with
  | nil => rfl
  | cons p ps ih =>
    simp only [keysOf, List.map_cons, List.mem_cons, not_or] at h
    have h1 : ¬ p.1 = k := fun hc => h.1 hc.symm
    simp [getProp, h1, ih (by simpa [keysOf] using h.2)]

theorem getProp_assign {V : Type} (s : Obj V) (h : (keysOf s).Nodup) :
    ∀ (t : Obj V) (k : String),
      (∀ v, getProp s k = some v → getProp (assign t s) k = some v) ∧
      (getProp s k = none → getProp (assign t s) k = getProp t k) := by
  induction s with
  | nil =>
    intro t k
    exact ⟨fun v hv => by simp [getProp] at hv, fun _ => rfl⟩
  | cons p ps ih =>
    simp only [keysOf, List.map_cons, List.nodup_cons] at h
    intro t k
    have hassign : assign t (p :: ps) = assign (setProp t p.1 p.2) ps := rfl
    have ihk := ih h.2 (setProp t p.1 p.2) k
    constructor
    · intro v hv
      rw [hassign]
      by_cases hk : p.1 = k
      · have hnone : getProp ps k = none := by
          refine getProp_eq_none ps k ?_
          rw [← hk]
          simpa [keysOf] using h.1
        have := ihk.2 hnone
        rw [this, getProp_setProp]
        simp only [getProp, if_pos hk] at hv
        simp [hk.symm, hv]
      · simp only [getProp, if_neg hk] at hv
        exact ihk.1 v hv
    · intro hnone
      rw [hassign]
      simp only [getProp] at hnone
      by_cases hk : p.1 = k
      · rw [if_pos hk] at hnone
        exact absurd hnone (by simp)
      · rw [if_neg hk] at hnone
        rw [ihk.2 hnone, getProp_setProp, if_neg (fun hc : k = p.1 => hk hc.symm)]

/-! ## Claim theorems -/

/-- C1: the admission check admits (confirm button enabled) iff the available
space minus the candidate size is positive and the selection count is positive;
it denies otherwise, including the exact boundary where space equals size. -/
theorem c1_admission_check (resourceCount : Nat) (fileSize spaceOnDrive : ℤ) :
    (buttonIsDisabled resourceCount fileSize spaceOnDrive = false ↔
      (0 < spaceOnDrive - fileSize ∧ 0 < resourceCount)) ∧
    (spaceOnDrive = fileSize → buttonIsDisabled resourceCount fileSize spaceOnDrive = true) := by
  constructor
  · simp only [buttonIsDisabled, remainingSpaceAfterTransfer, Bool.or_eq_false_iff,
      decide_eq_false_iff_not]
    omega
  · intro h
    subst h
    simp only [buttonIsDisabled, remainingSpaceAfterTransfer, Bool.or_eq_true,
      decide_eq_true_eq]
    omega

/-- Witness for C1 at resourceCount 2, fileSize 5, spaceOnDrive 10 (admitted)
and at the boundary spaceOnDrive = fileSize = 5 (denied). -/
theorem c1_admission_check_witness :
    buttonIsDisabled 2 5 10 = false ∧ buttonIsDisabled 2 5 5 = true :=
  ⟨(c1_admission_check 2 5 10).1.mpr (by decide), (c1_admission_check 2 5 5).2 rfl⟩

/-- C2 fails as stated: with the unrecognized filter token "bogus" the filter
step drops every item instead of passing every item through — over the
one-lesson collection the output is empty, not the unfiltered item set. -/
theorem c2_unrecognized_filter_counterexample :
    filterLessons "bogus" [sampleLesson] = [] ∧
      filterLessons "bogus" [sampleLesson] ≠ [sampleLesson] := by
  constructor
  · decide
  · decide

/-- C2 amended: for every filter token outside the recognized set
allLessons / activeLessons / inactiveLessons, the filter step of the table
drops every item, so the output is empty (the source callback falls through
with no return value; JavaScript yields undefined, which is falsy). -/
theorem c2_unrecognized_filter_drops_all (filterValue : String) (lessons : List Lesson)
    (h1 : filterValue ≠ "allLessons") (h2 : filterValue ≠ "activeLessons")
    (h3 : filterValue ≠ "inactiveLessons") :
    filterLessons filterValue lessons = [] := by
  have hp : ∀ l : Lesson, lessonFilterPred filterValue l = false := by
    intro l
    simp [lessonFilterPred, h1, h2, h3]
  induction lessons with
  | nil => rfl
  | cons l ls ih =>
    simp only [filterLessons, List.filter_cons, hp l] at ih ⊢
    simpa using ih

/-- Witness for the amended C2 at the unrecognized token "recentLessons". -/
theorem c2_unrecognized_filter_drops_all_witness :
    filterLessons "recentLessons" [sampleLesson, sampleLesson2] = [] :=
  c2_unrecognized_filter_drops_all "recentLessons" [sampleLesson, sampleLesson2]
    (by decide) (by decide) (by decide)

/-- C3 fails as stated: in the per-lesson resource table the hasAssignments
field is not a boolean predicate — the source stores the numeric tally sum
there, and at this input its value is the number 2, which is neither of the
two boolean encodings. -/
theorem c3_has_assignments_counterexample :
    (reportTable ["n1"] [("n1", sampleNode)] [sampleRecipient1, sampleRecipient2] []).map
        (fun row => row.hasAssignments) = [2] ∧
      (∀ b : Bool, (2 : Nat) ≠ b.toNat) := by
  constructor
  · decide
  · decide

/-- C3 amended: at the lesson-list level the hasAssignments field is the
boolean stating that the resolved recipient count is positive; at the
per-lesson resource level the field holds the numeric tally sum itself, so it
is truthy (nonzero) iff the sum of the four tally counts is positive — it is a
boolean only at the lesson-list level. -/
theorem c3_has_assignments_dual (lessons : List Lesson) (classLearners : List Recipient)
    (records : List CompletionRecord) (groupNameMap : List (String × String))
    (filterValue : String) (node_ids : List String)
    (contentNodeMap : List (String × ContentNode)) (recipients : List Recipient) :
    (∀ row ∈ table lessons classLearners records groupNameMap filterValue,
      (row.hasAssignments = true ↔ 0 < row.totalLearners)) ∧
    (∀ row ∈ reportTable node_ids contentNodeMap recipients records,
      row.hasAssignments = row.tally.sum ∧ (row.hasAssignments ≠ 0 ↔ 0 < row.tally.sum)) := by
  constructor
  · intro row hrow
    simp only [table, List.mem_map] at hrow
    obtain ⟨lesson, _, rfl⟩ := hrow
    simp
  · intro row hrow
    simp only [reportTable, List.mem_map] at hrow
    obtain ⟨content, _, rfl⟩ := hrow
    constructor
    · rfl
    · show (getContentStatusTally records content.content_id recipients).sum ≠ 0 ↔
        0 < (getContentStatusTally records content.content_id recipients).sum
      omega

/-- Witness for the amended C3: a concrete lesson-list row and a concrete
per-lesson resource row. -/
theorem c3_has_assignments_dual_witness :
    (sampleTableRow.hasAssignments = true ↔ 0 < sampleTableRow.totalLearners) ∧
      (sampleReportRow.hasAssignments = sampleReportRow.tally.sum ∧
        (sampleReportRow.hasAssignments ≠ 0 ↔ 0 < sampleReportRow.tally.sum)) :=
  ⟨(c3_has_assignments_dual [sampleLesson] [sampleRecipient1] [] [] "allLessons"
      ["n1"] [("n1", sampleNode)] [sampleRecipient1]).1 sampleTableRow (by decide),
   (c3_has_assignments_dual [sampleLesson] [sampleRecipient1] [] [] "allLessons"
      ["n1"] [("n1", sampleNode)] [sampleRecipient1]).2 sampleReportRow (by decide)⟩

/-- C4: for every recipient set and item, the four tally counts (naturals, so
non-negative by type) sum to exactly the recipient count, no count exceeds the
recipient count, and a recipient with no completion record for the item is
counted in the not-started bucket. -/
theorem c4_tally_invariant (records : List CompletionRecord) (itemId : String)
    (recipients : List Recipient) :
    (computeTally records itemId recipients).sum = recipients.length ∧
    (computeTally records itemId recipients).completed ≤ recipients.length ∧
    (computeTally records itemId recipients).inProgress ≤ recipients.length ∧
    (computeTally records itemId recipients).needsHelp ≤ recipients.length ∧
    (computeTally records itemId recipients).notStarted ≤ recipients.length ∧
    (∀ r : Recipient, recordFor records itemId r = none →
      statusFor records itemId r = Status.notStarted) := by
  have hsum := computeTally_sum records itemId recipients
  have hle := Tally.bucket_le_sum (computeTally records itemId recipients)
  refine ⟨hsum, ?_, ?_, ?_, ?_, ?_⟩
  · omega
  · omega
  · omega
  · omega
  · intro r hr
    simp [statusFor, hr]

/-- Witness for C4: two recipients, one with a completed record, one with no
record at all (counted as not-started). -/
theorem c4_tally_invariant_witness :
    (computeTally [⟨"r1", "x", Status.completed, none⟩] "x"
        [sampleRecipient1, sampleRecipient2]).sum =
      [sampleRecipient1, sampleRecipient2].length ∧
      statusFor [⟨"r1", "x", Status.completed, none⟩] "x" sampleRecipient2 =
        Status.notStarted :=
  ⟨(c4_tally_invariant [⟨"r1", "x", Status.completed, none⟩] "x"
      [sampleRecipient1, sampleRecipient2]).1,
   (c4_tally_invariant [⟨"r1", "x", Status.completed, none⟩] "x"
      [sampleRecipient1, sampleRecipient2]).2.2.2.2.2 sampleRecipient2 (by decide)⟩

/-- C5: remaining space after transfer equals the zero-clamped difference of
available space and candidate size, hence is never negative; at available 1000
and candidate 1200 it is 0, clamped from -200. -/
theorem c5_remaining_space_clamped (fileSize spaceOnDrive : ℤ) :
    remainingSpaceAfterTransfer fileSize spaceOnDrive = max (spaceOnDrive - fileSize) 0 ∧
    0 ≤ remainingSpaceAfterTransfer fileSize spaceOnDrive ∧
    remainingSpaceAfterTransfer 1200 1000 = 0 ∧
    (1000 : ℤ) - 1200 = -200 :=
  ⟨rfl, le_max_right _ _, by decide, by decide⟩

/-- C6: when no recipient has a defined time-spent value for the item, the
average is returned as zero directly; and whenever the contributing list is
nonempty, the denominator cast to the rationals is nonzero, so the division is
never taken with a zero denominator. -/
theorem c6_average_time_zero (records : List CompletionRecord) (itemId : String)
    (recipients : List Recipient) :
    (definedTimes records itemId recipients = [] →
      computeAverageTime records itemId recipients = 0) ∧
    (definedTimes records itemId recipients ≠ [] →
      ((definedTimes records itemId recipients).length : ℚ) ≠ 0) := by
  constructor
  · intro h
    simp [computeAverageTime, h]
  · intro h hc
    exact h (List.length_eq_zero.mp (by exact_mod_cast hc))

/-- Witness for C6: one recipient whose only record carries no time-spent
value, and separately the empty recipient set. -/
theorem c6_average_time_zero_witness :
    computeAverageTime [⟨"r1", "x", Status.inProgress, none⟩] "x" [sampleRecipient1] = 0 ∧
      computeAverageTime [] "x" [] = 0 :=
  ⟨(c6_average_time_zero [⟨"r1", "x", Status.inProgress, none⟩] "x" [sampleRecipient1]).1
      (by decide),
   (c6_average_time_zero [] "x" []).1 (by decide)⟩

/-- C7: the sort steps of both table projectors are stable — for every value of
the sort key, the equal-keyed elements appear in the sorted output in exactly
their input order (their key-filtered subsequence is unchanged). -/
theorem c7_sort_stable :
    (∀ (lessons : List Lesson) (k : String × Bool),
      (sortLessons lessons).filter (fun a => decide (lessonSortKey a = k)) =
        lessons.filter (fun a => decide (lessonSortKey a = k))) ∧
    (∀ (contents : List ContentNode) (k : String),
      (sortContents contents).filter (fun a => decide (a.title = k)) =
        contents.filter (fun a => decide (a.title = k))) := by
  constructor
  · intro lessons k
    refine filter_sortByBool lessonLe _ ?_ lessons
    intro a b ha hb
    rw [decide_eq_true_eq] at ha hb
    have hab : lessonSortKey a = lessonSortKey b := ha.trans hb.symm
    simp only [lessonSortKey, Prod.mk.injEq] at hab
    simp [lessonLe, hab.1, hab.2]
  · intro contents k
    refine filter_sortByBool contentLe _ ?_ contents
    intro a b ha hb
    rw [decide_eq_true_eq] at ha hb
    have hab : a.title = b.title := ha.trans hb.symm
    simp [contentLe, strLe, strLt, hab, charListLt_self]

/-- C8: the active-only filter keeps exactly the lessons whose active flag is
true and the inactive-only filter exactly those whose flag is false, as
order-preserving sublists; on the three-lesson scenario of the spec the
active-only output is exactly the two active lessons in input order. -/
theorem c8_active_inactive_filter (lessons : List Lesson) :
    filterLessons "activeLessons" lessons = lessons.filter (fun l => l.active) ∧
    filterLessons "inactiveLessons" lessons = lessons.filter (fun l => !l.active) ∧
    filterLessons "activeLessons" [sampleLesson, sampleLesson2, sampleLesson3] =
      [sampleLesson, sampleLesson3] := by
  refine ⟨?_, ?_, by decide⟩
  · simp only [filterLessons]
    refine List.filter_congr ?_
    intro a _
    simp [lessonFilterPred]
  · simp only [filterLessons]
    refine List.filter_congr ?_
    intro a _
    simp [lessonFilterPred]

/-- C9: the table projector is deterministic and idempotent — two invocations
with structurally identical items, recipients, records, group names and filter
produce value-identical ordered row sequences; the embedding is a pure function
of these arguments, so there is no hidden state between calls. -/
theorem c9_table_deterministic (lessons1 lessons2 : List Lesson)
    (cl1 cl2 : List Recipient) (rec1 rec2 : List CompletionRecord)
    (gm1 gm2 : List (String × String)) (f1 f2 : String)
    (h1 : lessons1 = lessons2) (h2 : cl1 = cl2) (h3 : rec1 = rec2)
    (h4 : gm1 = gm2) (h5 : f1 = f2) :
    table lessons1 cl1 rec1 gm1 f1 = table lessons2 cl2 rec2 gm2 f2 := by
  subst h1 h2 h3 h4 h5
  rfl

/-- Witness for C9 at a concrete invocation repeated twice. -/
theorem c9_table_deterministic_witness :
    table [sampleLesson] [sampleRecipient1] [] [] "allLessons" =
      table [sampleLesson] [sampleRecipient1] [] [] "allLessons" :=
  c9_table_deterministic [sampleLesson] [sampleLesson] [sampleRecipient1] [sampleRecipient1]
    [] [] [] [] "allLessons" "allLessons" rfl rfl rfl rfl rfl

/-- C10: Object.assign copies every field of the source lesson object over the
derived fields of the row — the id, title, active and groups entries of the
emitted row equal those of the source object, a source field named like a
derived field (such as hasAssignments or tally) overwrites the derived value,
and keys absent from the source keep their derived values. -/
theorem c10_assign_copies_source (classLearners : List Recipient)
    (records : List CompletionRecord) (groupNameMap : List (String × String))
    (lesson : Lesson) (extra : Obj JVal)
    (h : (keysOf (lessonObjOf lesson extra)).Nodup) :
    (∀ (k : String) (v : JVal), getProp (lessonObjOf lesson extra) k = some v →
      getProp (assembleRowObj classLearners records groupNameMap lesson
        (lessonObjOf lesson extra)) k = some v) ∧
    getProp (assembleRowObj classLearners records groupNameMap lesson
      (lessonObjOf lesson extra)) "id" = some (JVal.str lesson.id) ∧
    getProp (assembleRowObj classLearners records groupNameMap lesson
      (lessonObjOf lesson extra)) "title" = some (JVal.str lesson.title) ∧
    getProp (assembleRowObj classLearners records groupNameMap lesson
      (lessonObjOf lesson extra)) "active" = some (JVal.bool lesson.active) ∧
    getProp (assembleRowObj classLearners records groupNameMap lesson
      (lessonObjOf lesson extra)) "groups" = some (JVal.strs lesson.groups) ∧
    (∀ k : String, getProp (lessonObjOf lesson extra) k = none →
      getProp (assembleRowObj classLearners records groupNameMap lesson
        (lessonObjOf lesson extra)) k =
        getProp (derivedRowObj classLearners records groupNameMap lesson) k) := by
  have hmain := getProp_assign (lessonObjOf lesson extra) h
    (derivedRowObj classLearners records groupNameMap lesson)
  refine ⟨fun k v hv => (hmain k).1 v hv, ?_, ?_, ?_, ?_, fun k hk => (hmain k).2 hk⟩
  · exact (hmain "id").1 _ (by simp [lessonObjOf, getProp])
  · exact (hmain "title").1 _ (by simp [lessonObjOf, getProp])
  · exact (hmain "active").1 _ (by simp [lessonObjOf, getProp])
  · exact (hmain "groups").1 _ (by simp [lessonObjOf, getProp])

/-- Witness for C10: a source lesson object carrying its own hasAssignments
field, whose value the emitted row keeps in place of the derived boolean. -/
theorem c10_assign_copies_source_witness :
    getProp (assembleRowObj [] [] [] sampleLesson
        (lessonObjOf sampleLesson [("hasAssignments", JVal.num 7)])) "hasAssignments" =
      some (JVal.num 7) :=
  (c10_assign_copies_source [] [] [] sampleLesson [("hasAssignments", JVal.num 7)]
      (by decide)).1 "hasAssignments" (JVal.num 7) (by decide)

end Kolibri
